import Mathlib

/-!
Verification of the split-virtqueue engine, MMIO transport and block-request
parser of the `vm-virtio` repository, via a shallow embedding of the Rust
sources into Lean.

Machine integers are embedded as `Nat` with explicit wraparound (`% 2 ^ 16`
for `Wrapping<u16>` arithmetic, bounds checks against `2 ^ 64` for
`GuestAddress::checked_add`).  Guest memory is adversarial: it is an
arbitrary family of partial read functions (a failed `read_obj` is `none`),
and, for the used-ring producer, an explicit store of the device's typed
writes.  Fallible Rust functions returning `Result<_, Error>` become
`Except QueueError _`.
-/

namespace VmVirtio

/-! ## Descriptor flags and descriptor records (src/queue.rs) -/

def VIRTQ_DESC_F_NEXT : Nat := 0x1

def VIRTQ_DESC_F_WRITE : Nat := 0x2

def VIRTQ_DESC_F_INDIRECT : Nat := 0x4

/-- Size in bytes of a virtq descriptor (`VIRTQ_DESCRIPTOR_SIZE`). -/
def VIRTQ_DESCRIPTOR_SIZE : Nat := 16

/-- The `Descriptor` record of src/queue.rs: `addr: u64`, `len: u32`,
`flags: u16`, `next: u16`, embedded with `Nat` fields. -/
structure Descriptor where
  addr : Nat
  len : Nat
  flags : Nat
  next : Nat
  deriving Repr, DecidableEq

/-- Embeds `Descriptor::is_indirect`. -/
def Descriptor.isIndirect (d : Descriptor) : Bool :=
  d.flags &&& VIRTQ_DESC_F_INDIRECT != 0

/-- Embeds `Descriptor::is_write_only`. -/
def Descriptor.isWriteOnly (d : Descriptor) : Bool :=
  d.flags &&& VIRTQ_DESC_F_WRITE != 0

/-- The error enum of src/queue.rs. -/
inductive QueueError where
  | guestMemory
  | invalidIndirectDescriptor
  | invalidChain
  | overflow
  deriving Repr, DecidableEq

/-- The `DescriptorTable` record: guest base address and length in entries. -/
structure DescriptorTable where
  addr : Nat
  len : Nat
  deriving Repr, DecidableEq

/-- Embeds `DescriptorTable::new`. -/
def DescriptorTable.new (addr len : Nat) : DescriptorTable := ⟨addr, len⟩

/-- Embeds `DescriptorTable::new_indirect`: promote a descriptor carrying the
`INDIRECT` flag to a nested table.  `table_len = desc.len / 16`; the
candidate is rejected when the base address or byte length is not 16-byte
aligned, the byte length is below 16, or `table_len` exceeds `u16::MAX`. -/
def DescriptorTable.new_indirect (desc : Descriptor) : Except QueueError DescriptorTable :=
  let table_len := desc.len / VIRTQ_DESCRIPTOR_SIZE
  if desc.addr &&& (VIRTQ_DESCRIPTOR_SIZE - 1) != 0
      || desc.len &&& (VIRTQ_DESCRIPTOR_SIZE - 1) != 0
      || desc.len < VIRTQ_DESCRIPTOR_SIZE
      || table_len > 0xffff then
    .error .invalidIndirectDescriptor
  else
    .ok (DescriptorTable.new desc.addr table_len)

/-- The block request header record of src/block/request.rs
(`request_type: u32`, `_reserved: u32`, `sector: u64`). -/
structure RequestHeader where
  request_type : Nat
  reserved : Nat
  sector : Nat
  deriving Repr, DecidableEq

/-- Adversarial guest memory: each typed `read_obj`-style access is an
arbitrary partial function from guest byte addresses, so every theorem
quantifying over a `GuestMem` holds for all guest-controlled contents and
all failure patterns.  `checkedOffset a l` models
`GuestMemory::checked_offset(GuestAddress(a), l)`. -/
structure GuestMem where
  readDesc : Nat → Option Descriptor
  readU16 : Nat → Option Nat
  readHeader : Nat → Option RequestHeader
  checkedOffset : Nat → Nat → Option Nat

/-- Checked `u64` addition, as used by `GuestAddress::checked_add`. -/
def checkedAdd64 (a b : Nat) : Option Nat :=
  if a + b < 2 ^ 64 then some (a + b) else none

/-- Embeds `DescriptorTable::read_descriptor`: bounds-check the index, compute the
in-guest address `base + index * 16` with overflow checking, then read the
descriptor record from guest memory. -/
def DescriptorTable.read_descriptor (t : DescriptorTable) (m : GuestMem) (index : Nat) :
    Except QueueError Descriptor :=
  if index ≥ t.len then
    .error .invalidChain
  else
    match checkedAdd64 t.addr (index * VIRTQ_DESCRIPTOR_SIZE) with
    | none => .error .overflow
    | some desc_addr =>
      match m.readDesc desc_addr with
      | some d => .ok d
      | none => .error .guestMemory

/-! ## DescriptorChain (src/queue.rs) -/

/-- The `DescriptorChain` state: active table, remaining TTL, current
descriptor, and whether the walk entered an indirect table.  The memory
handle carried by the Rust struct is passed explicitly to each operation. -/
structure DescriptorChain where
  desc_table : DescriptorTable
  ttl : Nat
  desc : Descriptor
  indirect : Bool
  deriving Repr, DecidableEq

/-- Embeds `DescriptorChain::read_new`: read the descriptor at `index`; when it
carries the `INDIRECT` flag, replace the table with the indirect one derived
from it, re-seed from entry 0 and reset the TTL to the new table's length. -/
def DescriptorChain.read_new (m : GuestMem) (desc_table : DescriptorTable) (ttl index : Nat) :
    Except QueueError DescriptorChain :=
  if index ≥ desc_table.len then
    .error .invalidChain
  else do
    let d ← desc_table.read_descriptor m index
    if d.isIndirect then do
      let t ← DescriptorTable.new_indirect d
      let d0 ← t.read_descriptor m 0
      .ok ⟨t, t.len, d0, true⟩
    else
      .ok ⟨desc_table, ttl, d, false⟩

/-- Embeds `DescriptorChain::checked_new`: seed the TTL with the table length. -/
def DescriptorChain.checked_new (m : GuestMem) (desc_table : DescriptorTable) (index : Nat) :
    Except QueueError DescriptorChain :=
  DescriptorChain.read_new m desc_table desc_table.len index

/-- Embeds `DescriptorChain::has_next`: the current descriptor links onward and the
TTL still allows another step. -/
def DescriptorChain.hasNextStep (c : DescriptorChain) : Bool :=
  c.desc.flags &&& VIRTQ_DESC_F_NEXT != 0 && c.ttl > 1

/-- One step of `<DescriptorChain as Iterator>::next`: yield the current
descriptor and either follow the `next` link through `read_new` (with the
decremented TTL) or terminate by zeroing the TTL.  A failing `read_new`
yields nothing and leaves the state unchanged, exactly as `.ok()?` does. -/
def DescriptorChain.step (m : GuestMem) (c : DescriptorChain) :
    Option Descriptor × DescriptorChain :=
  if c.ttl = 0 then
    (none, c)
  else
    if c.hasNextStep then
      match DescriptorChain.read_new m c.desc_table (c.ttl - 1) c.desc.next with
      | .ok c' => (some c.desc, c')
      | .error _ => (none, c)
    else
      (some c.desc, { c with ttl := 0 })

/-- The chain state after `k` iterator steps. -/
def DescriptorChain.stepN (m : GuestMem) (c : DescriptorChain) : Nat → DescriptorChain
  | 0 => c
  | k + 1 => (DescriptorChain.step m (DescriptorChain.stepN m c k)).2

/-- The item produced by the `(k+1)`-th call to the chain iterator. -/
def DescriptorChain.yieldAt (m : GuestMem) (c : DescriptorChain) (k : Nat) : Option Descriptor :=
  (DescriptorChain.step m (DescriptorChain.stepN m c k)).1

/-- The list of descriptors yielded by the first `n` iterator calls
(cut short at the first call that yields nothing). -/
def DescriptorChain.yields (m : GuestMem) : Nat → DescriptorChain → List Descriptor
  | 0, _ => []
  | n + 1, c =>
    match DescriptorChain.step m c with
    | (some d, c') => d :: DescriptorChain.yields m n c'
    | (none, _) => []

/-! ## Queue and AvailIter (src/queue.rs) -/

/-- The `Queue` state of src/queue.rs.  `next_avail` and `next_used` are
`Wrapping<u16>` cursors kept below `2 ^ 16`; the memory handle of the Rust
struct is passed explicitly to the operations that access guest memory. -/
structure Queue where
  max_size : Nat
  next_avail : Nat
  next_used : Nat
  event_idx : Bool
  signalled_used : Option Nat
  size : Nat
  ready : Bool
  desc_table : Nat
  avail_ring : Nat
  used_ring : Nat
  deriving Repr, DecidableEq

/-- Embeds `Queue::new`. -/
def Queue.new (max_size : Nat) : Queue :=
  { max_size := max_size
    size := max_size
    ready := false
    desc_table := 0
    avail_ring := 0
    used_ring := 0
    next_avail := 0
    next_used := 0
    event_idx := false
    signalled_used := none }

/-- Embeds `Queue::actual_size`. -/
def Queue.actual_size (q : Queue) : Nat :=
  min q.size q.max_size

/-- Embeds `Queue::reset`. -/
def Queue.reset (q : Queue) : Queue :=
  { q with ready := false, size := q.max_size }

/-- Wrapping 16-bit subtraction, for `Wrapping<u16>` arithmetic. -/
def wsub16 (a b : Nat) : Nat :=
  (a % 2 ^ 16 + 2 ^ 16 - b % 2 ^ 16) % 2 ^ 16

/-- Wrapping 16-bit increment. -/
def winc16 (a : Nat) : Nat :=
  (a + 1) % 2 ^ 16

/-- The iterator state of `AvailIter`.  The `next_avail` field models the
mutable back-reference into the owning queue's persistent cursor. -/
structure AvailIter where
  desc_table : Nat
  avail_ring : Nat
  next_index : Nat
  last_index : Nat
  queue_size : Nat
  next_avail : Nat
  deriving Repr, DecidableEq

/-- One call of `<AvailIter as Iterator>::next`: stop when the cursor
reaches the snapshot; otherwise read the head index from the slot at
`avail_ring + 4 + (next_index % queue_size) * 2`, advance the local cursor,
attempt `DescriptorChain::checked_new` for that head, and bump the queue's
persistent `next_avail` only when the chain was built successfully. -/
def AvailIter.step (m : GuestMem) (it : AvailIter) :
    Option DescriptorChain × AvailIter :=
  if it.next_index = it.last_index then
    (none, it)
  else
    let offset := 4 + it.next_index % it.queue_size * 2
    match checkedAdd64 it.avail_ring offset with
    | none => (none, it)
    | some avail_addr =>
      match m.readU16 avail_addr with
      | none => (none, it)
      | some desc_index =>
        let it := { it with next_index := winc16 it.next_index }
        match DescriptorChain.checked_new m
            (DescriptorTable.new it.desc_table it.queue_size) desc_index with
        | .ok c => (some c, { it with next_avail := winc16 it.next_avail })
        | .error _ => (none, it)

/-! ## Used-ring producer (src/queue.rs) -/

/-- The store of typed writes the device has issued to guest memory:
`w32 a` is the value of the last `write_obj::<u32>` at byte address `a`,
`w16 a` the value of the last `write_obj::<u16>` there. -/
structure WriteMem where
  w32 : Nat → Option Nat
  w16 : Nat → Option Nat

/-- Embeds `write_obj::<u32>(v, a)`. -/
def WriteMem.write32 (m : WriteMem) (a v : Nat) : WriteMem :=
  { m with w32 := fun x => if x = a then some v else m.w32 x }

/-- Embeds `write_obj::<u16>(v, a)`. -/
def WriteMem.write16 (m : WriteMem) (a v : Nat) : WriteMem :=
  { m with w16 := fun x => if x = a then some v else m.w16 x }

/-- Embeds `Queue::add_used`: reject an out-of-bounds head, else write the used
element `(id, len)` at slot `next_used % actual_size`, increment
`next_used`, publish it to the `used.idx` field at `used_ring + 2`
(the release fence between the two writes has no observable effect in this
sequential embedding), and return the new cursor value. -/
def Queue.add_used (m : WriteMem) (q : Queue) (desc_index len : Nat) :
    Option Nat × Queue × WriteMem :=
  if desc_index ≥ q.actual_size then
    (none, q, m)
  else
    let next_used := q.next_used % q.actual_size
    let used_elem := q.used_ring + 4 + next_used * 8
    let m := m.write32 used_elem desc_index
    let m := m.write32 (used_elem + 4) len
    let q := { q with next_used := winc16 q.next_used }
    let m := m.write16 (q.used_ring + 2) q.next_used
    (some q.next_used, q, m)

/-! ## Notification suppression (src/queue.rs) -/

/-- Embeds `Queue::get_used_event`: read the `used_event` field at
`avail_ring + 4 + actual_size * 2` (an atomic 16-bit load; a failing
`get_slice` is `none`). -/
def Queue.get_used_event (m : GuestMem) (q : Queue) : Option Nat :=
  m.readU16 (q.avail_ring + (4 + q.actual_size * 2))

/-- Embeds `Queue::needs_notification`: with `event_idx` off, always notify.
Otherwise replace `signalled_used` with `used_idx`; notify when the old
value was absent or `used_event` is unreadable, and suppress exactly when
`used_idx - used_event - 1 ≥ used_idx - old` in wrapping 16-bit
arithmetic. -/
def Queue.needs_notification (m : GuestMem) (q : Queue) (used_idx : Nat) : Queue × Bool :=
  if q.event_idx then
    match q.signalled_used with
    | some old_idx =>
      let q' := { q with signalled_used := some used_idx }
      match q'.get_used_event m with
      | some used_event =>
        if wsub16 (wsub16 used_idx used_event) 1 ≥ wsub16 used_idx old_idx then
          (q', false)
        else
          (q', true)
      | none => (q', true)
    | none => ({ q with signalled_used := some used_idx }, true)
  else
    (q, true)

/-! ## Device status state machine (src/device/mod.rs, src/device/virtio_config.rs) -/

namespace device_status

def RESET : Nat := 0

def ACKNOWLEDGE : Nat := 1

def DRIVER : Nat := 2

def FAILED : Nat := 128

def FEATURES_OK : Nat := 8

def DRIVER_OK : Nat := 4

def DEVICE_NEEDS_RESET : Nat := 64

end device_status

/-- The effect of `set_device_status` on the device.  `set v` stores the raw
written value into `device_status`; `setThenActivate v` additionally runs the
activation check of the `DRIVER_OK` arm (which does not touch
`device_status` itself); `orFailed` ORs the `FAILED` bit in;
`requestReset` delegates to the device's `reset` hook; `ignored` only logs
a warning and changes nothing. -/
inductive StatusOutcome where
  | set (v : Nat)
  | setThenActivate (v : Nat)
  | orFailed
  | requestReset
  | ignored
  deriving Repr, DecidableEq

/-- Embeds `set_device_status` of src/device/virtio_config.rs: match on the newly
set bits `!device_status & status` (8-bit complement), falling through the
guarded arms in source order.  `cur` is the current `device_status` value. -/
def set_device_status (cur status : Nat) : StatusOutcome :=
  let changed := (255 ^^^ cur) &&& status
  if changed = device_status.ACKNOWLEDGE ∧ cur = device_status.RESET then
    .set status
  else if changed = device_status.DRIVER ∧ cur = device_status.ACKNOWLEDGE then
    .set status
  else if changed = device_status.FEATURES_OK ∧
      cur = (device_status.ACKNOWLEDGE ||| device_status.DRIVER) then
    .set status
  else if changed = device_status.DRIVER_OK ∧
      cur =
        (device_status.ACKNOWLEDGE ||| device_status.DRIVER ||| device_status.FEATURES_OK) then
    .setThenActivate status
  else if status &&& device_status.FAILED ≠ 0 then
    .orFailed
  else if status = 0 then
    .requestReset
  else
    .ignored

/-- The value of `device_status` after `set_device_status`, for the outcomes
that resolve within the function itself (`requestReset` delegates to the
device-specific `reset` hook, so its result is left abstract as `none`). -/
def device_status_after (cur : Nat) : StatusOutcome → Option Nat
  | .set v => some v
  | .setThenActivate v => some v
  | .orFailed => some (cur ||| device_status.FAILED)
  | .requestReset => none
  | .ignored => some cur

/-! ## MMIO transport, feature negotiation fragment
(src/proto/virtio/mmio.rs, src/proto/virtio/device.rs) -/

/-- The feature-negotiation portion of `VirtioState`
(src/proto/virtio/device.rs): 64-bit device and acknowledged feature
bitmaps, the two 32-bit page selectors, and the device status byte
consulted by `check_device_status`. -/
structure VirtioState where
  device_features : Nat
  acked_features : Nat
  features_select : Nat
  acked_features_select : Nat
  device_status : Nat
  deriving Repr, DecidableEq

/-- Embeds `VirtioDevice::set_device_features_select` (writes `features_select`). -/
def VirtioState.set_device_features_select (s : VirtioState) (value : Nat) : VirtioState :=
  { s with features_select := value }

/-- Embeds `VirtioDevice::set_driver_features_select` (writes
`acked_features_select`). -/
def VirtioState.set_driver_features_select (s : VirtioState) (value : Nat) : VirtioState :=
  { s with acked_features_select := value }

/-- Bitwise `u64` complement. -/
def not64 (x : Nat) : Nat := (2 ^ 64 - 1) ^^^ x

/-- Embeds `VirtioDevice::ack_features`: place the 32 acknowledged bits into the
half selected by `acked_features_select`, mask off bits the device never
offered, and OR the rest into `acked_features`. -/
def VirtioState.ack_features (s : VirtioState) (value : Nat) : VirtioState :=
  let page := s.acked_features_select
  let v := if page = 0 then value else if page = 1 then value <<< 32 else 0
  let unrequested_features := v &&& not64 s.device_features
  let v := if unrequested_features ≠ 0 then v &&& not64 unrequested_features else v
  { s with acked_features := s.acked_features ||| v }

/-- Embeds `VirtioDevice::check_device_status`. -/
def VirtioState.check_device_status (s : VirtioState) (set clr : Nat) : Bool :=
  s.device_status &&& (set ||| clr) = set

/-- The feature-negotiation arms of `VirtioMmioDevice::write` for a 32-bit
access (src/proto/virtio/mmio.rs): offsets 0x14, 0x20 and 0x24.  The other
registers of the 32-bit window act on queue state, the interrupt byte or
the status byte and never touch the fields of this fragment, so they leave
the state unchanged here. -/
def mmio_write_features (s : VirtioState) (offset v : Nat) : VirtioState :=
  if offset = 0x14 then
    s.set_device_features_select v
  else if offset = 0x20 then
    if s.check_device_status device_status.DRIVER
        (device_status.FEATURES_OK ||| device_status.FAILED) then
      s.ack_features v
    else
      s
  else if offset = 0x24 then
    s.set_device_features_select v
  else
    s

/-! ## Block request parser (src/block/request.rs) -/

/-- The block request errors of src/block/request.rs (the payload of
`GuestMemory(_)` is dropped; only the error kind matters here). -/
inductive BlockError where
  | descriptorChainTooShort
  | descriptorLengthTooSmall
  | guestMemory
  | unexpectedReadOnlyDescriptor
  | unexpectedWriteOnlyDescriptor
  deriving Repr, DecidableEq

/-- Embeds `RequestType` with the `From<u32>` classification below. -/
inductive RequestType where
  | In
  | Out
  | Flush
  | Discard
  | WriteZeroes
  | Unsupported (value : Nat)
  deriving Repr, DecidableEq

/-- Embeds `From<u32> for RequestType`. -/
def RequestType.fromU32 (value : Nat) : RequestType :=
  if value = 0 then .In
  else if value = 1 then .Out
  else if value = 4 then .Flush
  else if value = 11 then .Discard
  else if value = 13 then .WriteZeroes
  else .Unsupported value

/-- The parsed `Request` record. -/
structure Request where
  request_type : RequestType
  data_descriptors : List (Nat × Nat)
  sector : Nat
  status_addr : Nat
  deriving Repr, DecidableEq

/-- Modelled from the spec: `Descriptor::has_next` is called by
`Request::parse` on a plain `Descriptor` but is absent from the sources
under src/ (src/queue.rs only defines the chain-level
`DescriptorChain::has_next`).  Following the iteration contract of the
spec, a descriptor links onward exactly when its `NEXT` flag is set. -/
def Descriptor.hasNextFlag (d : Descriptor) : Bool :=
  d.flags &&& VIRTQ_DESC_F_NEXT != 0

/-- The while loop of `Request::parse`: `desc` is the current descriptor
and `c` the chain state after it was yielded.  The loop runs as long as
`desc` links onward, checking the data-descriptor direction against the
request type and the data address against guest memory, and accumulating
`(addr, len)` pairs.  `fuel` bounds the recursion (the Rust loop has no
such bound); `none` means the fuel ran out before the parser returned. -/
def parseLoop (m : GuestMem) :
    Nat → DescriptorChain → Request → Descriptor → Option (Except BlockError Request)
  | 0, _, _, _ => none
  | fuel + 1, c, req, desc =>
    if desc.hasNextFlag then
      if desc.isWriteOnly ∧ req.request_type = .Out then
        some (.error .unexpectedWriteOnlyDescriptor)
      else if ¬desc.isWriteOnly ∧ req.request_type = .In then
        some (.error .unexpectedReadOnlyDescriptor)
      else
        match m.checkedOffset desc.addr desc.len with
        | none => some (.error .guestMemory)
        | some _ =>
          let req := { req with data_descriptors := req.data_descriptors ++ [(desc.addr, desc.len)] }
          match DescriptorChain.step m c with
          | (some desc', c') => parseLoop m fuel c' req desc'
          | (none, _) => some (.error .descriptorChainTooShort)
    else
      -- Status descriptor checks at the end of `Request::parse`.
      some <|
        if ¬desc.isWriteOnly then
          .error .unexpectedReadOnlyDescriptor
        else if desc.len < 1 then
          .error .descriptorLengthTooSmall
        else
          match m.checkedOffset desc.addr 4 with
          | none => .error .guestMemory
          | some _ => .ok { req with status_addr := desc.addr }

/-- Embeds `Request::parse`: read the chain head as the request header (it must be
readable), then walk the remaining descriptors; a chain that stops right
after the header is only legal for `Flush` requests; the final descriptor
is validated as the status descriptor by `parseLoop`. -/
def Request.parse (m : GuestMem) (fuel : Nat) (c : DescriptorChain) :
    Option (Except BlockError Request) :=
  match DescriptorChain.step m c with
  | (none, _) => some (.error .descriptorChainTooShort)
  | (some chain_head, c1) =>
    if chain_head.isWriteOnly then
      some (.error .unexpectedWriteOnlyDescriptor)
    else
      match m.readHeader chain_head.addr with
      | none => some (.error .guestMemory)
      | some request_header =>
        match DescriptorChain.step m c1 with
        | (none, _) => some (.error .descriptorChainTooShort)
        | (some desc, c2) =>
          if ¬desc.hasNextFlag ∧ RequestType.fromU32 request_header.request_type ≠ .Flush then
            some (.error .descriptorChainTooShort)
          else
            parseLoop m fuel c2
              { request_type := RequestType.fromU32 request_header.request_type
                data_descriptors := []
                sector := request_header.sector
                status_addr := 0 } desc

/-! ## Theorems -/

/-- A descriptor whose byte length is `2 ^ 20`, so that `len / 16 = 2 ^ 16`
exactly: all the acceptance conditions named by claim C8 hold for it. -/
def c8Desc : Descriptor := ⟨0x1000, 0x100000, VIRTQ_DESC_F_INDIRECT, 0⟩

/-- C8 counterexample: the claim asserts that a descriptor with
`len / 16` equal to exactly `2 ^ 16` is accepted, but `new_indirect`
rejects `table_len > u16::MAX`, i.e. it rejects `len / 16 = 2 ^ 16`:
this aligned descriptor of length `2 ^ 20` satisfies every condition of
the claim yet fails with `InvalidIndirectDescriptor`. -/
theorem new_indirect_rejects_len_two_pow_16 :
    c8Desc.addr % 16 = 0 ∧ c8Desc.len % 16 = 0 ∧ 16 ≤ c8Desc.len ∧
      c8Desc.len / 16 ≤ 2 ^ 16 ∧
      DescriptorTable.new_indirect c8Desc = .error .invalidIndirectDescriptor :=
  ⟨rfl, rfl, by decide, by decide, rfl⟩

/-- C8 (amended): `new_indirect(desc)` succeeds exactly when
`desc.addr % 16 = 0`, `desc.len % 16 = 0`, `desc.len ≥ 16` and
`desc.len / 16 ≤ 2 ^ 16 - 1` (a quotient of exactly `2 ^ 16` is rejected),
and fails with `InvalidIndirectDescriptor` in every other case; on success
the table has base address `desc.addr` and `desc.len / 16` entries. -/
theorem new_indirect_ok_iff (d : Descriptor) :
    (∀ t, DescriptorTable.new_indirect d = .ok t ↔
      (d.addr % 16 = 0 ∧ d.len % 16 = 0 ∧ 16 ≤ d.len ∧ d.len / 16 ≤ 2 ^ 16 - 1 ∧
        t = ⟨d.addr, d.len / 16⟩)) ∧
    (¬(d.addr % 16 = 0 ∧ d.len % 16 = 0 ∧ 16 ≤ d.len ∧ d.len / 16 ≤ 2 ^ 16 - 1) →
      DescriptorTable.new_indirect d = .error .invalidIndirectDescriptor) := by
  have haddr : d.addr &&& 15 = d.addr % 16 := Nat.and_pow_two_sub_one_eq_mod d.addr 4
  have hlen : d.len &&& 15 = d.len % 16 := Nat.and_pow_two_sub_one_eq_mod d.len 4
  unfold DescriptorTable.new_indirect DescriptorTable.new
  simp only [VIRTQ_DESCRIPTOR_SIZE, haddr, hlen, Bool.or_eq_true, bne_iff_ne, ne_eq,
    decide_eq_true_eq]
  constructor
  · intro t
    split_ifs with h
    · refine ⟨fun hh => hh.elim, ?_⟩
      rintro ⟨h1, h2, h3, h4, rfl⟩
      rcases h with ((h | h) | h) | h <;> omega
    · push_neg at h
      obtain ⟨⟨⟨h1, h2⟩, h3⟩, h4⟩ := h
      simp only [Except.ok.injEq]
      constructor
      · rintro rfl
        exact ⟨h1, h2, by omega, by omega, rfl⟩
      · rintro ⟨-, -, -, -, rfl⟩
        rfl
  · intro h
    split_ifs with hc
    · rfl
    · push_neg at hc
      obtain ⟨⟨⟨h1, h2⟩, h3⟩, h4⟩ := hc
      exact absurd ⟨h1, h2, by omega, by omega⟩ h

/-- Witness for `new_indirect_ok_iff` at a concrete accepted descriptor and
a concrete rejected one. -/
theorem new_indirect_ok_iff_witness :
    DescriptorTable.new_indirect ⟨0x1000, 0x40, VIRTQ_DESC_F_INDIRECT, 0⟩ =
        .ok ⟨0x1000, 4⟩ ∧
      DescriptorTable.new_indirect ⟨0x1001, 0x40, VIRTQ_DESC_F_INDIRECT, 0⟩ =
        .error .invalidIndirectDescriptor := by
  constructor
  · exact ((new_indirect_ok_iff ⟨0x1000, 0x40, VIRTQ_DESC_F_INDIRECT, 0⟩).1 ⟨0x1000, 4⟩).2
      (by norm_num)
  · exact (new_indirect_ok_iff ⟨0x1001, 0x40, VIRTQ_DESC_F_INDIRECT, 0⟩).2 (by norm_num)

/-- A queue with nonzero cursors and a recorded signalled index, used to
exhibit what `Queue::reset` leaves behind. -/
def c5Queue : Queue :=
  { Queue.new 16 with
      size := 8
      ready := true
      next_avail := 5
      next_used := 7
      signalled_used := some 3
      desc_table := 0x1000
      avail_ring := 0x2000
      used_ring := 0x3000 }

/-- C5 counterexample: the claim says `reset` clears `next_avail`,
`next_used` and `signalled_used`, but on this queue all three survive a
reset untouched. -/
theorem reset_keeps_cursors :
    (Queue.reset c5Queue).next_avail = 5 ∧ (Queue.reset c5Queue).next_used = 7 ∧
      (Queue.reset c5Queue).signalled_used = some 3 :=
  ⟨rfl, rfl, rfl⟩

/-- C5 (amended): `Queue::reset` clears `ready` and restores
`size = max_size`, and leaves everything else — the three ring addresses,
both cursors, `signalled_used` and `event_idx` — unchanged. -/
theorem reset_spec (q : Queue) :
    (Queue.reset q).ready = false ∧ (Queue.reset q).size = q.max_size ∧
      (Queue.reset q).max_size = q.max_size ∧
      (Queue.reset q).desc_table = q.desc_table ∧
      (Queue.reset q).avail_ring = q.avail_ring ∧
      (Queue.reset q).used_ring = q.used_ring ∧
      (Queue.reset q).next_avail = q.next_avail ∧
      (Queue.reset q).next_used = q.next_used ∧
      (Queue.reset q).signalled_used = q.signalled_used ∧
      (Queue.reset q).event_idx = q.event_idx :=
  ⟨rfl, rfl, rfl, rfl, rfl, rfl, rfl, rfl, rfl, rfl⟩

/-- C3: `needs_notification(used_idx)` returns true unconditionally while
`event_idx` is off; with `event_idx` on it replaces `signalled_used` by
`used_idx` and notifies iff the previous value was absent, `used_event`
cannot be read, or `used_idx - used_event - 1 < used_idx - old` in
wrapping 16-bit arithmetic. -/
theorem needs_notification_spec (m : GuestMem) (q : Queue) (used_idx : Nat) :
    (q.event_idx = false → q.needs_notification m used_idx = (q, true)) ∧
    (q.event_idx = true →
      (q.needs_notification m used_idx).1 = { q with signalled_used := some used_idx } ∧
      (q.needs_notification m used_idx).2 =
        match q.signalled_used, m.readU16 (q.avail_ring + (4 + q.actual_size * 2)) with
        | none, _ => true
        | some _, none => true
        | some old_idx, some used_event =>
          decide (wsub16 (wsub16 used_idx used_event) 1 < wsub16 used_idx old_idx)) := by
  constructor
  · intro h
    unfold Queue.needs_notification
    rw [h]
    simp
  · intro h
    unfold Queue.needs_notification Queue.get_used_event Queue.actual_size
    rw [h]
    simp only [if_true]
    cases hs : q.signalled_used with
    | none => simp
    | some old_idx =>
      cases hr : m.readU16 (q.avail_ring + (4 + min q.size q.max_size * 2)) with
      | none => simp [hr]
      | some used_event =>
        simp only [hr]
        refine ⟨by split_ifs <;> rfl, ?_⟩
        split_ifs with hge
        · exact (decide_eq_false (Nat.not_lt.mpr hge)).symm
        · exact (decide_eq_true (Nat.lt_of_not_le hge)).symm

/-- Witness for `needs_notification_spec`: a concrete queue with
`event_idx` off always notifies, and one with `event_idx` on records the
new index. -/
theorem needs_notification_spec_witness :
    Queue.needs_notification ⟨fun _ => none, fun _ => some 4, fun _ => none, fun _ _ => none⟩
        (Queue.new 16) 5 = (Queue.new 16, true) ∧
      (Queue.needs_notification ⟨fun _ => none, fun _ => some 4, fun _ => none, fun _ _ => none⟩
        { Queue.new 16 with event_idx := true, signalled_used := some 1 } 5).1 =
      { Queue.new 16 with event_idx := true, signalled_used := some 5 } :=
  ⟨(needs_notification_spec _ (Queue.new 16) 5).1 rfl,
    ((needs_notification_spec _
      { Queue.new 16 with event_idx := true, signalled_used := some 1 } 5).2 rfl).1⟩

/-- C2: with the driver-selected `size` within `max_size` (the data-model
invariant), `add_used(i, L)` rejects `i ≥ actual_size` leaving the queue
and the used ring untouched; otherwise it writes `id = i` and `len = L`
into the slot at `next_used % size`, increments `next_used`, publishes the
new value to `used.idx` at `used_ring + 2`, and returns it. -/
theorem add_used_spec (m : WriteMem) (q : Queue) (desc_index len : Nat)
    (hsz : q.size ≤ q.max_size) :
    (desc_index ≥ q.actual_size → Queue.add_used m q desc_index len = (none, q, m)) ∧
    (desc_index < q.actual_size →
      (Queue.add_used m q desc_index len).1 = some (winc16 q.next_used) ∧
      (Queue.add_used m q desc_index len).2.1 = { q with next_used := winc16 q.next_used } ∧
      (Queue.add_used m q desc_index len).2.2.w32
          (q.used_ring + 4 + q.next_used % q.size * 8) = some desc_index ∧
      (Queue.add_used m q desc_index len).2.2.w32
          (q.used_ring + 4 + q.next_used % q.size * 8 + 4) = some len ∧
      (Queue.add_used m q desc_index len).2.2.w16 (q.used_ring + 2) =
        some (winc16 q.next_used)) := by
  have hmin : q.actual_size = q.size := min_eq_left hsz
  constructor
  · intro hge
    unfold Queue.add_used
    rw [if_pos hge]
  · intro hlt
    unfold Queue.add_used
    rw [if_neg (Nat.not_le.mpr hlt)]
    rw [hmin]
    refine ⟨rfl, rfl, ?_, ?_, ?_⟩ <;> simp [WriteMem.write32, WriteMem.write16]

/-- Witness for `add_used_spec`: on an empty 16-slot queue, `add_used(16, _)`
is rejected and `add_used(1, 0x1000)` writes used slot 0 and publishes
`used.idx = 1`. -/
theorem add_used_spec_witness :
    Queue.add_used ⟨fun _ => none, fun _ => none⟩
        { Queue.new 16 with used_ring := 0x3000 } 16 0x1000 =
      (none, { Queue.new 16 with used_ring := 0x3000 }, ⟨fun _ => none, fun _ => none⟩) ∧
    (Queue.add_used ⟨fun _ => none, fun _ => none⟩
        { Queue.new 16 with used_ring := 0x3000 } 1 0x1000).2.2.w32 (0x3000 + 4) = some 1 ∧
    (Queue.add_used ⟨fun _ => none, fun _ => none⟩
        { Queue.new 16 with used_ring := 0x3000 } 1 0x1000).2.2.w16 (0x3000 + 2) = some 1 := by
  refine ⟨(add_used_spec _ _ 16 0x1000 (by decide)).1 (by decide), ?_, ?_⟩
  · exact ((add_used_spec _ _ 1 0x1000 (by decide)).2 (by decide)).2.2.1
  · exact ((add_used_spec _ _ 1 0x1000 (by decide)).2 (by decide)).2.2.2.2

/-- C10: `actual_size` clamps the driver-selected size to `max_size`, and
`add_used` indexes the used ring with the clamped value: the rejection
threshold and the slot position both use `min size max_size`, even when
`size > max_size`. -/
theorem add_used_clamped (m : WriteMem) (q : Queue) (desc_index len : Nat) :
    q.actual_size = min q.size q.max_size ∧
    (desc_index ≥ min q.size q.max_size →
      Queue.add_used m q desc_index len = (none, q, m)) ∧
    (desc_index < min q.size q.max_size →
      (Queue.add_used m q desc_index len).1 = some (winc16 q.next_used) ∧
      (Queue.add_used m q desc_index len).2.2.w32
          (q.used_ring + 4 + q.next_used % min q.size q.max_size * 8) = some desc_index ∧
      (Queue.add_used m q desc_index len).2.2.w32
          (q.used_ring + 4 + q.next_used % min q.size q.max_size * 8 + 4) = some len ∧
      (Queue.add_used m q desc_index len).2.2.w16 (q.used_ring + 2) =
        some (winc16 q.next_used)) := by
  refine ⟨rfl, ?_, ?_⟩
  · intro hge
    unfold Queue.add_used Queue.actual_size
    rw [if_pos hge]
  · intro hlt
    unfold Queue.add_used Queue.actual_size
    rw [if_neg (Nat.not_le.mpr hlt)]
    refine ⟨rfl, ?_, ?_, ?_⟩ <;> simp [WriteMem.write32, WriteMem.write16]

/-- Witness for `add_used_clamped`, on a queue whose driver-selected size
(32) exceeds `max_size` (16): index 16 is already rejected, and a
successful write lands in the slot computed modulo 16. -/
theorem add_used_clamped_witness :
    Queue.add_used ⟨fun _ => none, fun _ => none⟩
        { Queue.new 16 with size := 32, next_used := 17 } 16 7 =
      (none, { Queue.new 16 with size := 32, next_used := 17 }, ⟨fun _ => none, fun _ => none⟩) ∧
    (Queue.add_used ⟨fun _ => none, fun _ => none⟩
        { Queue.new 16 with size := 32, next_used := 17 } 3 7).2.2.w32 (0 + 4 + 1 * 8) =
      some 3 := by
  refine ⟨(add_used_clamped _ _ 16 7).2.1 (by decide), ?_⟩
  exact ((add_used_clamped ⟨fun _ => none, fun _ => none⟩
    { Queue.new 16 with size := 32, next_used := 17 } 3 7).2.2 (by decide)).2.1

/-- C4: whenever `AvailIter::next` actually examines a slot (the cursor has
not reached the snapshot, the slot address is computable, and the head
index is readable), the local cursor `next_index` advances no matter what;
a head for which `DescriptorChain::checked_new` fails is dropped with the
cursor advanced as if consumed, while a successful construction also
increments the queue's persistent `next_avail`. -/
theorem avail_iter_step_spec (m : GuestMem) (it : AvailIter) (avail_addr desc_index : Nat)
    (hrun : it.next_index ≠ it.last_index)
    (haddr : checkedAdd64 it.avail_ring (4 + it.next_index % it.queue_size * 2) =
      some avail_addr)
    (hread : m.readU16 avail_addr = some desc_index) :
    AvailIter.step m it =
      match DescriptorChain.checked_new m (DescriptorTable.new it.desc_table it.queue_size)
          desc_index with
      | .ok c =>
        (some c,
          { it with next_index := winc16 it.next_index, next_avail := winc16 it.next_avail })
      | .error _ => (none, { it with next_index := winc16 it.next_index }) := by
  unfold AvailIter.step
  rw [if_neg hrun]
  simp only [haddr, hread]

/-- The available-ring iterator used by the C4 witness: 16 slots, two heads
pending. -/
def c4Iter : AvailIter :=
  { desc_table := 0
    avail_ring := 0x2000
    next_index := 0
    last_index := 2
    queue_size := 16
    next_avail := 0 }

/-- Guest memory for the C4 witness in which slot 0 holds the valid head 0
backed by a readable descriptor. -/
def c4MemOk : GuestMem :=
  { readDesc := fun a => if a = 0 then some ⟨0x1000, 0x1000, 0, 0⟩ else none
    readU16 := fun a => if a = 0x2004 then some 0 else none
    readHeader := fun _ => none
    checkedOffset := fun _ _ => none }

/-- Guest memory for the C4 witness in which slot 0 holds the malformed
head 99 (beyond the 16-entry table). -/
def c4MemBad : GuestMem :=
  { readDesc := fun a => if a = 0 then some ⟨0x1000, 0x1000, 0, 0⟩ else none
    readU16 := fun a => if a = 0x2004 then some 99 else none
    readHeader := fun _ => none
    checkedOffset := fun _ _ => none }

/-- Witness for `avail_iter_step_spec`: a good head advances both cursors
and yields the chain; the malformed head 99 yields nothing, advances
`next_index`, and leaves `next_avail` alone. -/
theorem avail_iter_step_spec_witness :
    AvailIter.step c4MemOk c4Iter =
      (some ⟨⟨0, 16⟩, 16, ⟨0x1000, 0x1000, 0, 0⟩, false⟩,
        { c4Iter with next_index := 1, next_avail := 1 }) ∧
    AvailIter.step c4MemBad c4Iter = (none, { c4Iter with next_index := 1 }) :=
  ⟨(avail_iter_step_spec c4MemOk c4Iter 0x2004 0 (by decide) rfl rfl).trans rfl,
    (avail_iter_step_spec c4MemBad c4Iter 0x2004 99 (by decide) rfl rfl).trans rfl⟩

/-- The transition lattice exactly as claim C6 states it: the four
incremental driver steps, setting `FAILED` from anywhere, and writing 0. -/
abbrev latticeAllowed (cur status : Nat) : Prop :=
  (cur = device_status.RESET ∧ status = device_status.ACKNOWLEDGE) ∨
  (cur = device_status.ACKNOWLEDGE ∧
    status = (device_status.ACKNOWLEDGE ||| device_status.DRIVER)) ∨
  (cur = (device_status.ACKNOWLEDGE ||| device_status.DRIVER) ∧
    status = (device_status.ACKNOWLEDGE ||| device_status.DRIVER |||
      device_status.FEATURES_OK)) ∨
  (cur = (device_status.ACKNOWLEDGE ||| device_status.DRIVER ||| device_status.FEATURES_OK) ∧
    status = (device_status.ACKNOWLEDGE ||| device_status.DRIVER |||
      device_status.FEATURES_OK ||| device_status.DRIVER_OK)) ∨
  status &&& device_status.FAILED ≠ 0 ∨
  status = 0

/-- C6 counterexample: the write `ACKNOWLEDGE → DRIVER` (1 → 2) lies
outside the claim's lattice (neither a legal step, nor `FAILED`, nor 0),
yet `set_device_status` accepts it — the guard only inspects the newly set
bits, so the raw value 2 is stored and `device_status` changes. -/
theorem set_device_status_outside_lattice_changes :
    ¬latticeAllowed 1 2 ∧ set_device_status 1 2 = .set 2 ∧
      device_status_after 1 (set_device_status 1 2) = some 2 := by
  refine ⟨?_, by decide, by decide⟩
  decide

/-- The transitions the code accepts: the newly-set bits
`!device_status & status` must be exactly the next lattice bit with the
current status equal to its expected predecessor (bits may be silently
cleared in the same write), or the write sets `FAILED` or is 0. -/
abbrev acceptedTransition (cur status : Nat) : Prop :=
  ((255 ^^^ cur) &&& status = device_status.ACKNOWLEDGE ∧ cur = device_status.RESET) ∨
  ((255 ^^^ cur) &&& status = device_status.DRIVER ∧ cur = device_status.ACKNOWLEDGE) ∨
  ((255 ^^^ cur) &&& status = device_status.FEATURES_OK ∧
    cur = (device_status.ACKNOWLEDGE ||| device_status.DRIVER)) ∨
  ((255 ^^^ cur) &&& status = device_status.DRIVER_OK ∧
    cur = (device_status.ACKNOWLEDGE ||| device_status.DRIVER |||
      device_status.FEATURES_OK)) ∨
  status &&& device_status.FAILED ≠ 0 ∨
  status = 0

/-- C6 (amended): for every current status byte and every written byte
whose transition the code does not accept — the newly-set bits are not
exactly the single expected next bit from its expected predecessor state,
`FAILED` is not being set, and the write is not 0 — `set_device_status`
only warns and leaves `device_status` unchanged. -/
theorem set_device_status_ignored_outside (cur status : Nat)
    (h : ¬acceptedTransition cur status) :
    set_device_status cur status = .ignored ∧
      device_status_after cur (set_device_status cur status) = some cur := by
  simp only [acceptedTransition, not_or] at h
  obtain ⟨hA, hB, hC, hD, hE, hF⟩ := h
  unfold set_device_status
  rw [if_neg hA, if_neg hB, if_neg hC, if_neg hD, if_neg hE, if_neg hF]
  exact ⟨rfl, rfl⟩

/-- Witness for `set_device_status_ignored_outside`: the write `3 → 5`
newly sets only `DRIVER_OK` but from the wrong predecessor, so it is
dropped. -/
theorem set_device_status_ignored_outside_witness :
    set_device_status 3 5 = .ignored ∧
      device_status_after 3 (set_device_status 3 5) = some 3 :=
  set_device_status_ignored_outside 3 5 (by decide)

/-- The device state used to exhibit the feature-selector defect of C7:
a device in `DRIVER` state offering feature bits 1 and 33. -/
def c7State : VirtioState :=
  { device_features := 0x200000002
    acked_features := 0
    features_select := 0
    acked_features_select := 0
    device_status := device_status.DRIVER }

/-- C7: a 32-bit write of 1 to offset 0x24 is routed to
`set_device_features_select`, exactly like offset 0x14, so the driver
features page selector (`acked_features_select`) stays 0 while the device
features selector is clobbered; consequently a subsequent ack of bit 1 on
what the driver believes is page 1 is ORed into the low half of
`acked_features` (yielding 2 instead of `2^33`), although routing 0x24 to
the trait's `set_driver_features_select` — which the MMIO write handler
never calls — would produce `2^33`. -/
theorem mmio_0x24_clobbers_device_features_select :
    (mmio_write_features c7State 0x24 1).acked_features_select = 0 ∧
    (mmio_write_features c7State 0x24 1).features_select = 1 ∧
    (mmio_write_features c7State 0x14 1).features_select = 1 ∧
    (mmio_write_features (mmio_write_features c7State 0x24 1) 0x20 2).acked_features = 2 ∧
    (mmio_write_features (c7State.set_driver_features_select 1) 0x20 2).acked_features =
      0x200000000 := by
  refine ⟨rfl, rfl, rfl, ?_, ?_⟩ <;> decide

/-- Guest memory for C1: the descriptor table at 0 holds an `INDIRECT`
descriptor pointing at a 2-entry indirect table at 0x1000; entry 0 of that
table links to entry 1 via `NEXT`, and entry 1 is itself an `INDIRECT`
descriptor pointing back at the very same table. -/
def c1Mem : GuestMem :=
  { readDesc := fun a =>
      if a = 0 then some ⟨0x1000, 0x20, VIRTQ_DESC_F_INDIRECT, 0⟩
      else if a = 0x1000 then some ⟨0x5000, 0x1000, VIRTQ_DESC_F_NEXT, 1⟩
      else if a = 0x1010 then some ⟨0x1000, 0x20, VIRTQ_DESC_F_INDIRECT, 0⟩
      else none
    readU16 := fun _ => none
    readHeader := fun _ => none
    checkedOffset := fun _ _ => none }

/-- The chain built by `checked_new` from head 0 of the C1 table: it sits
inside the 2-entry indirect table with a full TTL of 2. -/
def c1Chain : DescriptorChain :=
  ⟨⟨0x1000, 2⟩, 2, ⟨0x5000, 0x1000, VIRTQ_DESC_F_NEXT, 1⟩, true⟩

/-- C1: iterating the chain is unbounded.  Following entry 0's `NEXT` link
reaches the indirect descriptor in entry 1 of the already-indirect table;
instead of treating it as malformed and terminating, `read_new` promotes it
again and resets the TTL to the table length, so the iterator state returns
to itself exactly and yields a descriptor on every one of the first `n`
calls for every `n` — in particular more than the active table length 2
(the `ttl` field's own comment says it is meant to prevent infinite chain
cycles). -/
theorem chain_cycle_unbounded :
    DescriptorChain.checked_new c1Mem (DescriptorTable.new 0 16) 0 = .ok c1Chain ∧
    c1Chain.desc_table.len = 2 ∧
    DescriptorChain.step c1Mem c1Chain =
      (some ⟨0x5000, 0x1000, VIRTQ_DESC_F_NEXT, 1⟩, c1Chain) ∧
    (∀ n, (DescriptorChain.yields c1Mem n c1Chain).length = n) ∧
    2 < (DescriptorChain.yields c1Mem 3 c1Chain).length := by
  have hstep : DescriptorChain.step c1Mem c1Chain =
      (some ⟨0x5000, 0x1000, VIRTQ_DESC_F_NEXT, 1⟩, c1Chain) := rfl
  have hlen : ∀ n, (DescriptorChain.yields c1Mem n c1Chain).length = n := by
    intro n
    induction n with
    | zero => rfl
    | succ k ih =>
      rw [DescriptorChain.yields, hstep]
      simp [ih]
  exact ⟨rfl, rfl, hstep, hlen, by rw [hlen 3]; decide⟩

/-- A chain-iterator call that yields nothing leaves the chain state
unchanged (both the exhausted-TTL case and a failing `read_new` do). -/
theorem step_none_snd (m : GuestMem) (c : DescriptorChain)
    (h : (DescriptorChain.step m c).1 = none) : (DescriptorChain.step m c).2 = c := by
  unfold DescriptorChain.step at h ⊢
  split_ifs at h ⊢ with h1 h2
  · rfl
  · revert h
    cases hm : DescriptorChain.read_new m c.desc_table (c.ttl - 1) c.desc.next with
    | ok c' => intro h; exact absurd h (by simp)
    | error e => intro _; rfl

/-- Unrolling `stepN` from the front instead of the back. -/
theorem stepN_succ_shift (m : GuestMem) (c : DescriptorChain) (k : Nat) :
    DescriptorChain.stepN m c (k + 1) =
      DescriptorChain.stepN m (DescriptorChain.step m c).2 k := by
  induction k with
  | zero => rfl
  | succ j ih =>
    show (DescriptorChain.step m (DescriptorChain.stepN m c (j + 1))).2 = _
    rw [ih]
    rfl

/-- Unrolling `yieldAt` from the front. -/
theorem yieldAt_succ_shift (m : GuestMem) (c : DescriptorChain) (k : Nat) :
    DescriptorChain.yieldAt m c (k + 1) =
      DescriptorChain.yieldAt m (DescriptorChain.step m c).2 k := by
  unfold DescriptorChain.yieldAt
  rw [stepN_succ_shift]

/-- Once the chain iterator yields nothing it yields nothing forever. -/
theorem yieldAt_none_mono (m : GuestMem) (c : DescriptorChain) (k : Nat)
    (h : DescriptorChain.yieldAt m c k = none) :
    ∀ j, DescriptorChain.yieldAt m c (k + j) = none := by
  intro j
  induction j with
  | zero => exact h
  | succ i ih =>
    have hfix : DescriptorChain.stepN m c (k + i + 1) = DescriptorChain.stepN m c (k + i) :=
      step_none_snd m _ ih
    show DescriptorChain.yieldAt m c (k + i + 1) = none
    unfold DescriptorChain.yieldAt
    rw [hfix]
    exact ih

/-- A yielded descriptor without the `NEXT` flag ends the chain: the
iterator state it leaves behind has TTL 0. -/
theorem step_yield_no_next (m : GuestMem) (c0 c1 : DescriptorChain) (d : Descriptor)
    (h : DescriptorChain.step m c0 = (some d, c1)) (hf : d.hasNextFlag = false) :
    c1.ttl = 0 := by
  unfold DescriptorChain.step at h
  split_ifs at h with h1 h2
  · simp at h
  · revert h
    cases hm : DescriptorChain.read_new m c0.desc_table (c0.ttl - 1) c0.desc.next with
    | ok c' =>
      intro h
      injection h with hfst hsnd
      injection hfst with hd
      subst hd
      unfold DescriptorChain.hasNextStep at h2
      unfold Descriptor.hasNextFlag at hf
      rw [Bool.and_eq_true] at h2
      rw [h2.1] at hf
      cases hf
    | error e =>
      intro h
      simp at h
  · injection h with hfst hsnd
    rw [← hsnd]

/-- The descriptor sequence as seen from the middle of a walk: position 0
is the descriptor `desc` just yielded, and the later positions are the
yields of the chain state `c` it left behind. -/
def chainYieldFrom (m : GuestMem) (desc : Descriptor) (c : DescriptorChain) :
    Nat → Option Descriptor
  | 0 => some desc
  | k + 1 => DescriptorChain.yieldAt m c k

/-- When `desc` was yielded by stepping `c`, the walk-relative sequence
from `(desc, post-state)` is the chain's own yield sequence from `c`. -/
theorem chainYieldFrom_eq_yieldAt (m : GuestMem) (c c1 : DescriptorChain) (d0 : Descriptor)
    (hstep : DescriptorChain.step m c = (some d0, c1)) :
    ∀ j, chainYieldFrom m d0 c1 j = DescriptorChain.yieldAt m c j := by
  intro j
  cases j with
  | zero =>
    show some d0 = (DescriptorChain.step m c).1
    rw [hstep]
  | succ i =>
    show DescriptorChain.yieldAt m c1 i = DescriptorChain.yieldAt m c (i + 1)
    rw [yieldAt_succ_shift, hstep]

/-- The data-descriptor loop of `Request::parse` only returns `ok` with the
status fields taken from the last descriptor of the remaining walk: that
descriptor exists at some position, nothing follows it, it is write-only
with a nonzero length and a guest-valid address, and `status_addr` is its
address.  The side condition ties `desc` and `c` together the way the loop
receives them from the chain iterator. -/
theorem parseLoop_ok_props (m : GuestMem) :
    ∀ (fuel : Nat) (c : DescriptorChain) (req : Request) (desc : Descriptor) (r : Request),
      parseLoop m fuel c req desc = some (.ok r) →
      (desc.hasNextFlag = false → c.ttl = 0) →
      ∃ k d, chainYieldFrom m desc c k = some d ∧
        chainYieldFrom m desc c (k + 1) = none ∧
        d.isWriteOnly = true ∧ 1 ≤ d.len ∧ (m.checkedOffset d.addr 4).isSome = true ∧
        r.status_addr = d.addr := by
  intro fuel
  induction fuel with
  | zero => intro c req desc r h _; cases h
  | succ n ih =>
    intro c req desc r h hinv
    rw [parseLoop] at h
    by_cases hnx : desc.hasNextFlag
    · rw [if_pos hnx] at h
      split_ifs at h with hd1 hd2
      · cases h
      · cases h
      · revert h
        cases hco : m.checkedOffset desc.addr desc.len with
        | none => intro h; cases h
        | some off =>
          intro h
          revert h
          cases hstep : DescriptorChain.step m c with
          | mk o c' =>
            cases o with
            | none => intro h; cases h
            | some dnext =>
              intro h
              obtain ⟨k, d, hy1, hy2, hwo, hlen, hok, haddr⟩ :=
                ih c' _ dnext r h (fun hf => step_yield_no_next m c c' dnext hstep hf)
              refine ⟨k + 1, d, ?_, ?_, hwo, hlen, hok, haddr⟩
              · show DescriptorChain.yieldAt m c k = some d
                rw [← chainYieldFrom_eq_yieldAt m c c' dnext hstep k]
                exact hy1
              · show DescriptorChain.yieldAt m c (k + 1) = none
                rw [← chainYieldFrom_eq_yieldAt m c c' dnext hstep (k + 1)]
                exact hy2
    · rw [if_neg hnx] at h
      refine ⟨0, desc, rfl, ?_, ?_⟩
      · show DescriptorChain.yieldAt m c 0 = none
        unfold DescriptorChain.yieldAt DescriptorChain.stepN DescriptorChain.step
        rw [if_pos (hinv (Bool.of_not_eq_true hnx))]
      · injection h with h
        by_cases hw : desc.isWriteOnly = true
        · rw [if_neg (not_not_intro hw)] at h
          by_cases hl : desc.len < 1
          · rw [if_pos hl] at h
            exact absurd h (by simp)
          · rw [if_neg hl] at h
            revert h
            cases hco : m.checkedOffset desc.addr 4 with
            | none => intro h; exact absurd h (by simp)
            | some off =>
              intro h
              injection h with hr
              rw [← hr]
              exact ⟨hw, Nat.not_lt.mp hl, rfl, rfl⟩
        · rw [if_pos hw] at h
          exact absurd h (by simp)

/-- Helper for claim C9: every successful `Request::parse` run took its
status fields from the last descriptor of the chain. -/
theorem parse_ok_aux (m : GuestMem) (fuel : Nat) (c0 : DescriptorChain) (r : Request)
    (h : Request.parse m fuel c0 = some (.ok r)) :
    ∃ k d, DescriptorChain.yieldAt m c0 k = some d ∧
      DescriptorChain.yieldAt m c0 (k + 1) = none ∧
      d.isWriteOnly = true ∧ 1 ≤ d.len ∧ (m.checkedOffset d.addr 4).isSome = true ∧
      r.status_addr = d.addr := by
  rw [Request.parse] at h
  revert h
  cases hstep0 : DescriptorChain.step m c0 with
  | mk o0 c1 =>
    cases o0 with
    | none => intro h; simp at h
    | some chain_head =>
      intro h
      dsimp only at h
      by_cases hwo : chain_head.isWriteOnly = true
      · rw [if_pos hwo] at h
        exact absurd h (by simp)
      · rw [if_neg hwo] at h
        revert h
        cases hh : m.readHeader chain_head.addr with
        | none => intro h; simp at h
        | some request_header =>
          intro h
          dsimp only at h
          revert h
          cases hstep1 : DescriptorChain.step m c1 with
          | mk o1 c2 =>
            cases o1 with
            | none => intro h; simp at h
            | some desc =>
              intro h
              dsimp only at h
              by_cases hguard : (¬desc.hasNextFlag = true ∧
                  RequestType.fromU32 request_header.request_type ≠ .Flush)
              · rw [if_pos hguard] at h
                exact absurd h (by simp)
              · rw [if_neg hguard] at h
                obtain ⟨k, d, hy1, hy2, hrest⟩ :=
                  parseLoop_ok_props m fuel c2 _ desc r h
                    (fun hf => step_yield_no_next m c1 c2 desc hstep1 hf)
                have conv : ∀ j, chainYieldFrom m desc c2 j =
                    DescriptorChain.yieldAt m c0 (j + 1) := by
                  intro j
                  rw [chainYieldFrom_eq_yieldAt m c1 c2 desc hstep1 j]
                  rw [yieldAt_succ_shift m c0 j, hstep0]
                refine ⟨k + 1, d, ?_, ?_, hrest⟩
                · rw [← conv k]; exact hy1
                · rw [← conv (k + 1)]; exact hy2

/-- C9 (amended): on every chain accepted by `Request::parse`, the returned
`status_addr` is the address of the last descriptor yielded by the chain
iterator; that descriptor is write-only, at least one byte long, and its
address is valid in guest memory for the status write.  A chain whose last
descriptor is read-only, or zero-length, can never parse successfully (the
reported error may reflect an earlier defect of the chain, such as
`UnexpectedWriteOnlyDescriptor` on a data descriptor). -/
theorem parse_status_descriptor_spec (m : GuestMem) (fuel : Nat) (c0 : DescriptorChain) :
    (∀ r, Request.parse m fuel c0 = some (.ok r) →
      ∃ k d, DescriptorChain.yieldAt m c0 k = some d ∧
        DescriptorChain.yieldAt m c0 (k + 1) = none ∧
        d.isWriteOnly = true ∧ 1 ≤ d.len ∧ (m.checkedOffset d.addr 4).isSome = true ∧
        r.status_addr = d.addr) ∧
    (∀ k d r, DescriptorChain.yieldAt m c0 k = some d →
      DescriptorChain.yieldAt m c0 (k + 1) = none →
      (d.isWriteOnly = false ∨ d.len = 0) →
      Request.parse m fuel c0 ≠ some (.ok r)) := by
  refine ⟨fun r h => parse_ok_aux m fuel c0 r h, ?_⟩
  intro k d r hy hyn hbad h
  obtain ⟨k', d', hy1', hyn', hwo', hlen', -, -⟩ := parse_ok_aux m fuel c0 r h
  have hkk : k = k' := by
    by_contra hne
    rcases Nat.lt_or_ge k k' with hlt | hge
    · have hnone : DescriptorChain.yieldAt m c0 k' = none := by
        have hmono := yieldAt_none_mono m c0 (k + 1) hyn (k' - (k + 1))
        rwa [Nat.add_sub_cancel' hlt] at hmono
      rw [hnone] at hy1'
      cases hy1'
    · have hlt' : k' < k := lt_of_le_of_ne hge (Ne.symm hne)
      have hnone : DescriptorChain.yieldAt m c0 k = none := by
        have hmono := yieldAt_none_mono m c0 (k' + 1) hyn' (k - (k' + 1))
        rwa [Nat.add_sub_cancel' (Nat.succ_le_of_lt hlt')] at hmono
      rw [hnone] at hy
      cases hy
  subst hkk
  rw [hy] at hy1'
  injection hy1' with hd
  subst hd
  rcases hbad with hb | hb
  · rw [hb] at hwo'
    cases hwo'
  · omega

/-- Guest memory for the C9 witness: a 3-descriptor `Out` chain (read-only
header at table entry 0, read-only 512-byte data buffer, write-only 1-byte
status), with every guest address valid. -/
def c9Mem : GuestMem :=
  { readDesc := fun a =>
      if a = 0 then some ⟨0x100000, 16, VIRTQ_DESC_F_NEXT, 1⟩
      else if a = 16 then some ⟨0x200000, 512, VIRTQ_DESC_F_NEXT, 2⟩
      else if a = 32 then some ⟨0x300000, 1, VIRTQ_DESC_F_WRITE, 0⟩
      else none
    readU16 := fun _ => none
    readHeader := fun a => if a = 0x100000 then some ⟨1, 0, 42⟩ else none
    checkedOffset := fun a l => some (a + l) }

/-- The chain over the C9 witness table, seeded at head 0. -/
def c9Chain : DescriptorChain :=
  ⟨⟨0, 16⟩, 16, ⟨0x100000, 16, VIRTQ_DESC_F_NEXT, 1⟩, false⟩

/-- Guest memory for the C9 counterexample: same chain shape, but the data
descriptor is write-only while the request is `Out`, and the status
descriptor is read-only. -/
def c9MemBad : GuestMem :=
  { readDesc := fun a =>
      if a = 0 then some ⟨0x100000, 16, VIRTQ_DESC_F_NEXT, 1⟩
      else if a = 16 then
        some ⟨0x200000, 512, VIRTQ_DESC_F_NEXT ||| VIRTQ_DESC_F_WRITE, 2⟩
      else if a = 32 then some ⟨0x300000, 1, 0, 0⟩
      else none
    readU16 := fun _ => none
    readHeader := fun a => if a = 0x100000 then some ⟨1, 0, 42⟩ else none
    checkedOffset := fun a l => some (a + l) }

/-- The chain over the C9 counterexample table. -/
def c9BadChain : DescriptorChain :=
  ⟨⟨0, 16⟩, 16, ⟨0x100000, 16, VIRTQ_DESC_F_NEXT, 1⟩, false⟩

/-- C9 counterexample: this chain's last descriptor (the status slot) is
read-only, but `Request::parse` reports `UnexpectedWriteOnlyDescriptor` —
the direction error on the data descriptor detected first — not the
`UnexpectedReadOnlyDescriptor` the claim promises for such chains. -/
theorem parse_error_precedence_counterexample :
    Request.parse c9MemBad 20 c9BadChain =
      some (.error .unexpectedWriteOnlyDescriptor) ∧
    DescriptorChain.yieldAt c9MemBad c9BadChain 2 = some ⟨0x300000, 1, 0, 0⟩ ∧
    DescriptorChain.yieldAt c9MemBad c9BadChain 3 = none ∧
    Descriptor.isWriteOnly ⟨0x300000, 1, 0, 0⟩ = false :=
  ⟨rfl, rfl, rfl, rfl⟩

/-- Witness for `parse_status_descriptor_spec`: the well-formed `Out` chain
parses to a request whose status byte is the final write-only descriptor,
and the chain with the read-only status slot can never parse successfully.
-/
theorem parse_status_descriptor_spec_witness :
    (∃ k d, DescriptorChain.yieldAt c9Mem c9Chain k = some d ∧
      DescriptorChain.yieldAt c9Mem c9Chain (k + 1) = none ∧
      d.isWriteOnly = true ∧ 1 ≤ d.len ∧ (c9Mem.checkedOffset d.addr 4).isSome = true ∧
      Request.status_addr ⟨.Out, [(0x200000, 512)], 42, 0x300000⟩ = d.addr) ∧
    Request.parse c9MemBad 20 c9BadChain ≠ some (.ok ⟨.Out, [], 42, 0⟩) :=
  ⟨(parse_status_descriptor_spec c9Mem 20 c9Chain).1 ⟨.Out, [(0x200000, 512)], 42, 0x300000⟩ rfl,
    (parse_status_descriptor_spec c9MemBad 20 c9BadChain).2 2 ⟨0x300000, 1, 0, 0⟩
      ⟨.Out, [], 42, 0⟩ rfl rfl (Or.inl rfl)⟩
end VmVirtio

